import Mathlib

/-!
Verification of the text-analysis and script-assembly core of the
Eye-of-Saudi-Arabia repository (src/app.py).

The Python code is shallowly embedded: each method of
ProfessionalScriptGenerator and AdvancedScriptAnalyzer that the claims
touch becomes an executable Lean definition over String / Nat / Int / Rat.
Python floats are modelled as exact rationals, Python round(x, 1) as
round-half-to-even on rationals, and Python int() truncation of a
non-negative quantity as the floor.
-/

namespace App

/- The four kernel-reducible but irreducible-marked rational operations
are unsealed locally so that concrete scenario theorems can be settled
by evaluation. -/
attribute [local semireducible] Rat.add Rat.mul Rat.inv Rat.sub

/-! ### Python string primitives -/

/-- Whitespace recognised by Python str.split with no separator, restricted
to the ASCII whitespace characters that occur in this application
(space, tab, newline, carriage return, vertical tab, form feed). -/
def pyIsSpace (c : Char) : Bool :=
  c = ' ' || c = '\t' || c = '\n' || c = '\r' || c = '\x0b' || c = '\x0c'

/-- Helper for pySplitWS: accumulates the current word (reversed) and emits
words at whitespace boundaries, discarding empty fragments. -/
def splitWSAux : List Char → List Char → List (List Char)
  | [], acc => if acc.isEmpty then [] else [acc.reverse]
  | c :: rest, acc =>
    if pyIsSpace c then
      if acc.isEmpty then splitWSAux rest [] else acc.reverse :: splitWSAux rest []
    else splitWSAux rest (c :: acc)

/-- Python text.split() with no argument: split on runs of whitespace,
no empty tokens. -/
def pySplitWS (s : String) : List String :=
  (splitWSAux s.data []).map fun l => ⟨l⟩

/-- Helper for pySplitOn: split on a separator character, keeping empty
fragments, exactly like Python text.split(sep). -/
def splitOnAux (sep : Char) : List Char → List Char → List (List Char)
  | [], acc => [acc.reverse]
  | c :: rest, acc =>
    if c = sep then acc.reverse :: splitOnAux sep rest []
    else splitOnAux sep rest (c :: acc)

/-- Python text.split(sep) for a one-character separator. -/
def pySplitOn (sep : Char) (s : String) : List String :=
  (splitOnAux sep s.data []).map fun l => ⟨l⟩

/-- Truthiness of fragment.strip() in Python: the fragment contains at
least one non-whitespace character. -/
def hasNonSpace (s : String) : Bool :=
  s.data.any fun c => !(pyIsSpace c)

/-- Python fragment.strip() with no argument: drop whitespace from both
ends. -/
def pyStripWS (s : String) : String :=
  ⟨((s.data.dropWhile pyIsSpace).reverse.dropWhile pyIsSpace).reverse⟩

/-- The punctuation characters of the strip call in the word-frequency
computation: period, comma, exclamation, question mark, Arabic
semicolon, colon. -/
def punctChars : List Char := ['.', ',', '!', '?', '؛', ':']

/-- Python w.strip(".,!?؛:"): remove the given characters from BOTH ends
of the token (Python strip is two-sided). -/
def pyStripPunct (s : String) : String :=
  ⟨((s.data.dropWhile (punctChars.contains ·)).reverse.dropWhile
      (punctChars.contains ·)).reverse⟩

/-- Python text.count for the two-character pattern of one newline followed
by another: counts non-overlapping occurrences scanning left to right. -/
def countDoubleNL : List Char → Nat
  | '\n' :: '\n' :: rest => countDoubleNL rest + 1
  | _ :: rest => countDoubleNL rest
  | [] => 0

/-- Prefix test on character lists. -/
def charsPrefix : List Char → List Char → Bool
  | [], _ => true
  | _ :: _, [] => false
  | a :: as, b :: bs => a == b && charsPrefix as bs

/-- Substring search on character lists. -/
def containsChars (needle : List Char) : List Char → Bool
  | [] => needle.isEmpty
  | c :: rest => charsPrefix needle (c :: rest) || containsChars needle rest

/-- The Python membership test, needle in hay, on strings. -/
def containsSub (needle hay : String) : Bool :=
  containsChars needle.data hay.data

/-- Decimal digits as matched by the regex patterns in the source,
restricted to the ASCII and Arabic digit ranges that can occur in this
application. -/
def pyIsDigit (c : Char) : Bool :=
  c.isDigit || ('٠' ≤ c && c ≤ '٩') || ('۰' ≤ c && c ≤ '۹')

/-- Helper: counts maximal runs of digits; the boolean says whether the
scan is currently inside a run. -/
def countRunsAux : List Char → Bool → Nat
  | [], _ => 0
  | c :: rest, inRun =>
    if pyIsDigit c then
      if inRun then countRunsAux rest true else countRunsAux rest true + 1
    else countRunsAux rest false

/-- Number of matches of the one-or-more-digits regex in the text: the
number of maximal digit runs. -/
def numbersCount (s : String) : Nat := countRunsAux s.data false

/-- Helper: whether some position starts four consecutive digits; the
counter is the number of digits seen immediately before the current
character. -/
def hasRun4Aux : List Char → Nat → Bool
  | [], _ => false
  | c :: rest, k =>
    if pyIsDigit c then
      if 3 ≤ k then true else hasRun4Aux rest (k + 1)
    else hasRun4Aux rest 0

/-- Whether the four-consecutive-digits regex has at least one match. -/
def hasDatesIn (s : String) : Bool := hasRun4Aux s.data 0

/-- The floor of a rational, written executably (equal to the Mathlib
floor by ratFloor_eq below). -/
def ratFloor (x : ℚ) : ℤ := x.num / (x.den : ℤ)

/-- Python round to the nearest integer with ties going to the even
integer (the rounding used by round on floats). -/
def pyRoundHalfEvenInt (x : ℚ) : ℤ :=
  if x - ratFloor x < 1/2 then ratFloor x
  else if 1/2 < x - ratFloor x then ratFloor x + 1
  else if ratFloor x % 2 = 0 then ratFloor x else ratFloor x + 1

/-- Python round(x, 1): round to one decimal place. -/
def pyRound1 (x : ℚ) : ℚ := (pyRoundHalfEvenInt (10 * x) : ℚ) / 10

/-! ### collections.Counter and most_common

counterOf models collections.Counter built from a token list: one entry
per distinct token, keyed in first-occurrence order, carrying the total
number of occurrences.  sortByCount models the stable
descending-by-count sort performed by Counter.most_common (stable, so
ties keep first-occurrence order). -/

/-- Recursion core of counterOf: structural recursion on a fuel bound on
the list length, so that the definition evaluates inside the kernel.
The fuel never runs out when it starts at the list length, because
filtering only shortens the list. -/
def counterGo : Nat → List String → List (String × Nat)
  | _, [] => []
  | 0, _ :: _ => []
  | fuel + 1, w :: rest =>
    (w, 1 + rest.count w) :: counterGo fuel (rest.filter (fun v => v != w))

/-- The frequency table of a token list: distinct tokens in
first-occurrence order, each with its total count. -/
def counterOf (l : List String) : List (String × Nat) := counterGo l.length l

/-- Stable insertion for the descending-by-count sort: the new entry goes
before the first entry whose count is not larger, hence before entries
of equal count (stability). -/
def insertByCount (p : String × Nat) : List (String × Nat) → List (String × Nat)
  | [] => [p]
  | q :: rest => if p.2 < q.2 then q :: insertByCount p rest else p :: q :: rest

/-- Stable descending-by-count insertion sort, the order produced by
Counter.most_common. -/
def sortByCount : List (String × Nat) → List (String × Nat)
  | [] => []
  | p :: rest => insertByCount p (sortByCount rest)

/-! ### AdvancedScriptAnalyzer: lexicons -/

/-- The journalist-indicator lexicon of _style_analysis. -/
def journalistIndicators : List String :=
  ["يقع", "تقع", "يُعد", "تُعد", "يشير", "تشير", "وفقاً",
   "حيث", "إذ", "بينما", "من جهة", "من ناحية", "تاريخياً",
   "حالياً", "مستقبلاً", "المصادر", "التقارير", "الدراسات"]

/-- The personal-pronoun lexicon of _style_analysis. -/
def personalPronouns : List String := ["أنا", "نحن", "أشعر", "أرى", "أعتقد"]

/-- The formal-word lexicon of _detect_tone. -/
def formalWords : List String := ["يُعد", "تُعتبر", "يشير", "وفقاً", "حيث", "إذ"]

/-- The informal-word lexicon of _detect_tone. -/
def informalWords : List String := ["رائع", "جميل", "مذهل", "خيالي"]

/-- The source-mention lexicon of _content_analysis. -/
def sourceWords : List String := ["المصادر", "المرجع", "الدراسة", "التقرير"]

/-- The topic-keyword table of _content_analysis, in declaration order. -/
def topicKeywords : List (String × List String) :=
  [("تاريخ", ["تاريخ", "قديم", "عصر", "حقبة", "قرن"]),
   ("ثقافة", ["ثقافة", "تراث", "عمارة", "فن"]),
   ("سياحة", ["سياحة", "زوار", "زيارة", "جولة"]),
   ("اقتصاد", ["اقتصاد", "استثمار", "تنمية", "وظائف"])]

/-- Number of lexicon entries occurring as substrings of the text, the
sum(1 for word in lex if word in text) pattern of the source. -/
def lexCount (lex : List String) (text : String) : Nat :=
  (lex.filter (fun w => containsSub w text)).length

def journalistScore (text : String) : Nat := lexCount journalistIndicators text

def pronounCount (text : String) : Nat := lexCount personalPronouns text

def formalCount (text : String) : Nat := lexCount formalWords text

def informalCount (text : String) : Nat := lexCount informalWords text

/-! ### AdvancedScriptAnalyzer: basic analysis -/

/-- self.words: the whitespace-split tokens of the script text. -/
def wordsOf (text : String) : List String := pySplitWS text

/-- self.sentences: fragments of the period-split text that are non-blank,
each stripped of surrounding whitespace. -/
def sentencesOf (text : String) : List String :=
  ((pySplitOn '.' text).filter hasNonSpace).map pyStripWS

/-- The unrounded average sentence length word_count / sentence_count,
zero when there are no sentences. -/
def avgSentLen (text : String) : ℚ :=
  if 0 < (sentencesOf text).length then
    ((wordsOf text).length : ℚ) / ((sentencesOf text).length : ℚ)
  else 0

/-- The unrounded average word length, zero when there are no words. -/
def avgWordLen (text : String) : ℚ :=
  if 0 < (wordsOf text).length then
    (((wordsOf text).map String.length).sum : ℚ) / ((wordsOf text).length : ℚ)
  else 0

/-- The dictionary returned by _basic_analysis. -/
structure BasicAnalysis where
  word_count : Nat
  sentence_count : Nat
  char_count : Nat
  paragraph_count : Nat
  avg_sentence_length : ℚ
  avg_word_length : ℚ
  reading_time_minutes : ℚ
  broadcast_time_seconds : ℤ
deriving DecidableEq, Repr

/-- AdvancedScriptAnalyzer._basic_analysis. -/
def basicAnalysis (text : String) : BasicAnalysis :=
  { word_count := (wordsOf text).length
    sentence_count := (sentencesOf text).length
    char_count := text.length
    paragraph_count := countDoubleNL text.data + 1
    avg_sentence_length := pyRound1 (avgSentLen text)
    avg_word_length := pyRound1 (avgWordLen text)
    reading_time_minutes := pyRound1 (((wordsOf text).length : ℚ) / 150)
    broadcast_time_seconds := ratFloor (((wordsOf text).length : ℚ) / (5/2)) }

/-! ### AdvancedScriptAnalyzer: style analysis -/

/-- AdvancedScriptAnalyzer._detect_tone. -/
def detectTone (text : String) : String :=
  if informalCount text * 2 < formalCount text then "رسمي"
  else if formalCount text < informalCount text then "غير رسمي"
  else "متوازن"

/-- The dictionary returned by _style_analysis.  The source carries
objectivity as the string formed from the integer percentage; it is
modelled here as the integer itself (the only consumers parse it back
with int and rstrip). -/
structure StyleAnalysis where
  style_type : String
  journalist_score : Nat
  objectivity : ℤ
  uses_data : Bool
  numbers_count : Nat
  has_dates : Bool
  well_structured : Bool
  tone : String
deriving DecidableEq, Repr

/-- AdvancedScriptAnalyzer._style_analysis. -/
def styleAnalysis (text : String) : StyleAnalysis :=
  { style_type := if 5 ≤ journalistScore text then "إعلامي محترف" else "عام"
    journalist_score := journalistScore text
    objectivity := max 0 (min 100 (100 - 10 * (pronounCount text : ℤ)))
    uses_data := decide (0 < numbersCount text)
    numbers_count := numbersCount text
    has_dates := hasDatesIn text
    well_structured := decide (2 ≤ countDoubleNL text.data)
    tone := detectTone text }

/-! ### AdvancedScriptAnalyzer: content analysis -/

/-- The token list fed to Counter in _content_analysis and
_analyze_script: whitespace tokens whose RAW length exceeds 3, each then
stripped of the punctuation characters on both ends. -/
def qualTokens (text : String) : List String :=
  ((wordsOf text).filter (fun w => 3 < w.length)).map pyStripPunct

/-- The word-frequency table word_freq = Counter(...). -/
def wordFreq (text : String) : List (String × Nat) := counterOf (qualTokens text)

/-- most_common = word_freq.most_common(10). -/
def mostCommonWords (text : String) : List (String × Nat) :=
  (sortByCount (wordFreq text)).take 10

/-- The covered-topic labels, in table order. -/
def topicsCovered (text : String) : List String :=
  (topicKeywords.filter (fun tk => tk.2.any (fun kw => containsSub kw text))).map Prod.fst

/-- The dictionary returned by _content_analysis.  The source wraps each
most-common entry in a word/count dictionary; it is modelled as the
pair itself. -/
structure ContentAnalysis where
  most_common_words : List (String × Nat)
  topics_covered : List String
  has_quotes : Bool
  mentions_sources : Bool
  diversity_score : ℚ
deriving DecidableEq, Repr

/-- AdvancedScriptAnalyzer._content_analysis.  Char.ofNat 39 is the ASCII
apostrophe quote character tested by has_quotes; len(set(words)) is the
length of the duplicate-free word list. -/
def contentAnalysis (text : String) : ContentAnalysis :=
  { most_common_words := (mostCommonWords text).take 5
    topics_covered := topicsCovered text
    has_quotes := text.data.contains '"' || text.data.contains (Char.ofNat 39)
    mentions_sources := sourceWords.any (fun w => containsSub w text)
    diversity_score :=
      if (wordsOf text).isEmpty then 0
      else ((wordsOf text).dedup.length : ℚ) / ((wordsOf text).length : ℚ) }

/-! ### AdvancedScriptAnalyzer: recommendations

One constant per recommendation dictionary of _generate_recommendations,
with the exact strings of the source.  The source key named type is
modelled as the field rtype. -/

structure Recommendation where
  rtype : String
  priority : String
  issue : String
  suggestion : String
deriving DecidableEq, Repr

/-- Rule 1: word_count < 100. -/
def recTooShort : Recommendation :=
  { rtype := "الطول", priority := "عالية", issue := "السكريبت قصير جداً"
    suggestion := "أضف المزيد من التفاصيل والمعلومات الخلفية. السكريبت الإعلامي الجيد يتراوح بين 200-500 كلمة." }

/-- Rule 2: word_count > 600. -/
def recTooLong : Recommendation :=
  { rtype := "الطول", priority := "متوسطة", issue := "السكريبت طويل قد يكون مملاً"
    suggestion := "حاول الاختصار والتركيز على النقاط الرئيسية. قسّم المحتوى إلى تقريرين منفصلين إذا لزم الأمر." }

/-- Rule 3: journalist_score < 3. -/
def recNotJournalistic : Recommendation :=
  { rtype := "الأسلوب", priority := "عالية", issue := "الأسلوب غير إعلامي بما يكفي"
    suggestion := "استخدم عبارات إعلامية احترافية مثل: \"وفقاً للمصادر\"، \"تشير التقارير\"، \"من الجدير بالذكر\". تجنب الضمائر الشخصية." }

/-- Rule 4: objectivity < 80. -/
def recSubjective : Recommendation :=
  { rtype := "الموضوعية", priority := "عالية", issue := "السكريبت يحتوي على آراء شخصية"
    suggestion := "حافظ على الحياد الصحفي. استبدل الآراء الشخصية بحقائق وبيانات موثقة." }

/-- Rule 5: no numbers. -/
def recNoData : Recommendation :=
  { rtype := "البيانات", priority := "متوسطة", issue := "عدم وجود أرقام أو إحصائيات"
    suggestion := "أضف أرقاماً وإحصائيات لدعم المعلومات. مثل: عدد الزوار، التكلفة، المساحة، التواريخ المحددة." }

/-- Rule 6: no source mention. -/
def recNoSources : Recommendation :=
  { rtype := "المصادر", priority := "عالية", issue := "عدم ذكر المصادر"
    suggestion := "اذكر مصادر المعلومات لزيادة المصداقية. مثل: \"وفقاً لتقرير اليونسكو\"، \"حسب بيانات الهيئة\"." }

/-- Rule 7: paragraph_count < 3. -/
def recUnstructured : Recommendation :=
  { rtype := "الهيكلة", priority := "متوسطة", issue := "السكريبت غير منظم في فقرات"
    suggestion := "قسّم السكريبت إلى فقرات واضحة: مقدمة، جسم (2-3 فقرات)، خاتمة." }

/-- Rule 8: avg_sentence_length > 25. -/
def recLongSentences : Recommendation :=
  { rtype := "القراءة", priority := "متوسطة", issue := "الجمل طويلة جداً"
    suggestion := "اختصر الجمل لتكون أسهل في القراءة والفهم. الجملة المثالية: 15-20 كلمة." }

/-- Fallback when no rule fired. -/
def recNoIssues : Recommendation :=
  { rtype := "عام", priority := "معلومة", issue := "لا توجد مشاكل كبيرة"
    suggestion := "السكريبت احترافي وجيد البناء. استمر على هذا المستوى!" }

/-- AdvancedScriptAnalyzer._generate_recommendations: the rules evaluated
in declaration order, each appending at most one recommendation; rules 1
and 2 are an if/elif pair. -/
def generateRecommendations (basic : BasicAnalysis) (style : StyleAnalysis)
    (content : ContentAnalysis) : List Recommendation :=
  let recs :=
    (if basic.word_count < 100 then [recTooShort]
     else if 600 < basic.word_count then [recTooLong] else [])
    ++ (if style.journalist_score < 3 then [recNotJournalistic] else [])
    ++ (if style.objectivity < 80 then [recSubjective] else [])
    ++ (if style.uses_data then [] else [recNoData])
    ++ (if content.mentions_sources then [] else [recNoSources])
    ++ (if basic.paragraph_count < 3 then [recUnstructured] else [])
    ++ (if 25 < basic.avg_sentence_length then [recLongSentences] else [])
  if recs.isEmpty then [recNoIssues] else recs

/-! ### AdvancedScriptAnalyzer: overall score -/

/-- The length term of _calculate_overall_score (20 points max). -/
def lengthPoints (wc : Nat) : ℚ :=
  if 200 ≤ wc ∧ wc ≤ 500 then 20
  else if (150 ≤ wc ∧ wc < 200) ∨ (500 < wc ∧ wc ≤ 600) then 15
  else 10

/-- The unclamped, unrounded weighted sum of _calculate_overall_score.
The literal 0.15 of the source is the rational 3/20. -/
def scoreTotal (basic : BasicAnalysis) (style : StyleAnalysis)
    (content : ContentAnalysis) : ℚ :=
  lengthPoints basic.word_count
  + min 25 ((style.journalist_score : ℚ) * 3)
  + (style.objectivity : ℚ) * (3/20)
  + (if style.uses_data then 10 else 0)
  + (if style.has_dates then 5 else 0)
  + (if content.mentions_sources then 10 else 0)
  + (if 3 ≤ basic.paragraph_count then 5 else 0)
  + (if style.well_structured then 5 else 0)
  + content.diversity_score * 5

/-- The rating tiers of _calculate_overall_score. -/
def ratingOf (score : ℚ) : String :=
  if 90 ≤ score then "ممتاز"
  else if 75 ≤ score then "جيد جداً"
  else if 60 ≤ score then "جيد"
  else if 50 ≤ score then "مقبول"
  else "يحتاج تحسين"

/-- The dictionary returned by _calculate_overall_score. -/
structure OverallScore where
  score : ℚ
  rating : String
  max_score : Nat
deriving DecidableEq, Repr

/-- AdvancedScriptAnalyzer._calculate_overall_score. -/
def calculateOverallScore (basic : BasicAnalysis) (style : StyleAnalysis)
    (content : ContentAnalysis) : OverallScore :=
  { score := min 100 (pyRound1 (scoreTotal basic style content))
    rating := ratingOf (min 100 (pyRound1 (scoreTotal basic style content)))
    max_score := 100 }

/-! ### AdvancedScriptAnalyzer.analyze -/

/-- The analysis dictionary assembled by analyze.  The field analyzed_at
carries datetime.now() formatted as a string; the clock reading is an
explicit input of the embedding. -/
structure AnalyzeResult where
  basic : BasicAnalysis
  style : StyleAnalysis
  content : ContentAnalysis
  recommendations : List Recommendation
  overall_score : OverallScore
  analyzed_at : String
deriving DecidableEq, Repr

/-- The recommendations produced for a text, wiring _basic_analysis,
_style_analysis and _content_analysis together as analyze does. -/
def recommendationsOf (text : String) : List Recommendation :=
  generateRecommendations (basicAnalysis text) (styleAnalysis text) (contentAnalysis text)

/-- The overall score produced for a text, wired as analyze does. -/
def overallOf (text : String) : OverallScore :=
  calculateOverallScore (basicAnalysis text) (styleAnalysis text) (contentAnalysis text)

/-- AdvancedScriptAnalyzer.analyze on a text, at a given clock reading. -/
def analyze (text now : String) : AnalyzeResult :=
  { basic := basicAnalysis text
    style := styleAnalysis text
    content := contentAnalysis text
    recommendations := recommendationsOf text
    overall_score := overallOf text
    analyzed_at := now }

/-- The keys of the analysis dictionary returned by analyze, in source
order. -/
def analyzeResultKeys : List String :=
  ["basic", "style", "content", "recommendations", "overall_score", "analyzed_at"]

/-! ### ProfessionalScriptGenerator._analyze_script -/

/-- The readability tier of _analyze_script, computed from the unrounded
average sentence length. -/
def readabilityOf (text : String) : String :=
  if avgSentLen text < 15 then "سهل"
  else if avgSentLen text < 25 then "متوسط"
  else "متقدم"

/-- The dictionary returned by _analyze_script. -/
structure ScriptAnalysis where
  word_count : Nat
  sentence_count : Nat
  avg_sentence_length : ℚ
  readability : String
  most_common_words : List (String × Nat)
  paragraph_count : Nat
deriving DecidableEq, Repr

/-- ProfessionalScriptGenerator._analyze_script: the summary analysis the
generator attaches to its result.  Its word, sentence and frequency
computations coincide textually with those of the analyzer. -/
def analyzeScript (script : String) : ScriptAnalysis :=
  { word_count := (wordsOf script).length
    sentence_count := (sentencesOf script).length
    avg_sentence_length := pyRound1 (avgSentLen script)
    readability := readabilityOf script
    most_common_words := (mostCommonWords script).take 5
    paragraph_count := countDoubleNL script.data + 1 }

/-- The keys of the dictionary returned by _analyze_script, in source
order. -/
def scriptAnalysisKeys : List String :=
  ["word_count", "sentence_count", "avg_sentence_length", "readability",
   "most_common_words", "paragraph_count"]

/-! ### ProfessionalScriptGenerator.generate: section selection

The claims about generate concern which sections are present and in
which order, so the landmark record is modelled with the fields that
gate sections, and each section is identified by the title string
appended in generate.  Section bodies do not influence identity except
through emptiness, and the body builders return the empty string exactly
when their backing collection is empty (_generate_key_landmarks,
_generate_statistics and _suggest_journalist_angles each start with an
early return of the empty string), so the three body-emptiness guards of
generate are modelled as emptiness of the backing collection. -/

/-- A story record (the source key named type is modelled as stype). -/
structure Story where
  title : String
  content : String
  year : Option String := none
  sources : List String := []
  stype : Option String := none
deriving DecidableEq, Repr

/-- A key-landmark record. -/
structure KeyLandmark where
  name : String
  description : String
  year : Option String := none
  significance : Option String := none
deriving DecidableEq, Repr

/-- The parts of a landmark record that gate sections of generate. -/
structure Landmark where
  stories : List Story
  key_landmarks : List KeyLandmark
  statistics : List (String × String)
  journalist_angles : List String
deriving DecidableEq, Repr

/-- random.choice modelled with an explicit index: pick position r modulo
the list length, with a default for the impossible empty case. -/
def pyChoice {α : Type} (r : Nat) (d : α) (l : List α) : α :=
  l.getD (r % l.length) d

/-- The ordered list of section titles appended by generate for a given
landmark, duration (seconds) and random story choice.  Mirrors the ten
append sites of generate: title and intro always; historical context at
90; detailed description always; significance at 60; one random story at
120 when stories exist; key landmarks at 90 when present; statistics at
150 when present; journalist angles at 180 when present; visit info at
60; conclusion always. -/
def sectionTitles (lm : Landmark) (duration : Nat) (r : Nat) : List String :=
  ["العنوان", "المقدمة"]
  ++ (if 90 ≤ duration then ["الخلفية التاريخية"] else [])
  ++ ["الوصف التفصيلي"]
  ++ (if 60 ≤ duration then ["الأهمية والتفرد"] else [])
  ++ (if 120 ≤ duration then
        match lm.stories with
        | [] => []
        | s :: rest => ["قصة: " ++ (pyChoice r s (s :: rest)).title]
      else [])
  ++ (if 90 ≤ duration then
        if lm.key_landmarks.isEmpty then [] else ["المعالم البارزة"]
      else [])
  ++ (if 150 ≤ duration then
        if lm.statistics.isEmpty then [] else ["أرقام وإحصائيات"]
      else [])
  ++ (if 180 ≤ duration then
        if lm.journalist_angles.isEmpty then [] else ["زوايا صحفية مقترحة"]
      else [])
  ++ (if 60 ≤ duration then ["معلومات الزيارة"] else [])
  ++ ["الخاتمة"]

/-! ## Helper lemmas -/

theorem mem_insertByCount {p a : String × Nat} :
    ∀ {l : List (String × Nat)}, a ∈ insertByCount p l ↔ a = p ∨ a ∈ l := by
  intro l
  induction l with
  | nil => simp [insertByCount]
  | cons q rest ih =>
    simp only [insertByCount]
    split
    · simp only [List.mem_cons, ih]
      tauto
    · simp only [List.mem_cons]

theorem pairwise_insertByCount {p : String × Nat} {l : List (String × Nat)}
    (h : l.Pairwise (fun a b => b.2 ≤ a.2)) :
    (insertByCount p l).Pairwise (fun a b => b.2 ≤ a.2) := by
  induction l with
  | nil => simp [insertByCount]
  | cons q rest ih =>
    rw [List.pairwise_cons] at h
    obtain ⟨hq, hrest⟩ := h
    simp only [insertByCount]
    split
    case isTrue hlt =>
      rw [List.pairwise_cons]
      refine ⟨?_, ih hrest⟩
      intro b hb
      rcases mem_insertByCount.mp hb with rfl | hbm
      · exact le_of_lt hlt
      · exact hq b hbm
    case isFalse hge =>
      rw [List.pairwise_cons]
      refine ⟨?_, List.pairwise_cons.mpr ⟨hq, hrest⟩⟩
      intro b hb
      rcases List.mem_cons.mp hb with rfl | hbm
      · omega
      · have := hq b hbm
        omega

theorem pairwise_sortByCount (l : List (String × Nat)) :
    (sortByCount l).Pairwise (fun a b => b.2 ≤ a.2) := by
  induction l with
  | nil => simp [sortByCount]
  | cons p rest ih => exact pairwise_insertByCount ih

theorem filter_insertByCount (p : String × Nat) (c : Nat) :
    ∀ l : List (String × Nat),
      (insertByCount p l).filter (fun q => q.2 == c)
        = if p.2 = c then p :: l.filter (fun q => q.2 == c)
          else l.filter (fun q => q.2 == c) := by
  intro l
  induction l with
  | nil =>
    by_cases hp : p.2 = c <;> simp [insertByCount, List.filter_cons, beq_iff_eq, hp]
  | cons q rest ih =>
    simp only [insertByCount]
    split
    case isTrue hlt =>
      by_cases hq : q.2 = c
      · have hp : ¬ p.2 = c := by omega
        simp [List.filter_cons, hq, hp, ih]
      · simp [List.filter_cons, hq, ih]
    case isFalse hge =>
      by_cases hp : p.2 = c <;> simp [List.filter_cons, hp]

theorem filter_sortByCount (c : Nat) (l : List (String × Nat)) :
    (sortByCount l).filter (fun q => q.2 == c) = l.filter (fun q => q.2 == c) := by
  induction l with
  | nil => simp [sortByCount]
  | cons p rest ih =>
    simp only [sortByCount, filter_insertByCount, ih, List.filter_cons]
    by_cases hp : p.2 = c <;> simp [hp]

theorem counterGo_key_mem :
    ∀ (fuel : Nat) (l : List String), ∀ p ∈ counterGo fuel l, p.1 ∈ l := by
  intro fuel
  induction fuel with
  | zero =>
    intro l p hp
    cases l with
    | nil => simp [counterGo] at hp
    | cons w rest => simp [counterGo] at hp
  | succ n ih =>
    intro l p hp
    cases l with
    | nil => simp [counterGo] at hp
    | cons w rest =>
      simp only [counterGo] at hp
      rcases List.mem_cons.mp hp with rfl | hm
      · exact List.mem_cons_self _ _
      · exact List.mem_cons_of_mem _ (List.mem_of_mem_filter (ih _ p hm))

theorem counterOf_key_mem : ∀ l : List String, ∀ p ∈ counterOf l, p.1 ∈ l :=
  fun l => counterGo_key_mem l.length l

theorem count_filter_ne {a w : String} (hne : a ≠ w) :
    ∀ l : List String, (l.filter (fun v => v != w)).count a = l.count a := by
  intro l
  induction l with
  | nil => simp
  | cons v vs ih =>
    by_cases hv : v = w
    · subst hv
      rw [List.count_cons_of_ne hne]
      simpa [List.filter_cons] using ih
    · have hvb : (v != w) = true := by simp [hv]
      simp [List.filter_cons, hvb, List.count_cons, ih]

theorem counterGo_count :
    ∀ (fuel : Nat) (l : List String), ∀ p ∈ counterGo fuel l, p.2 = l.count p.1 := by
  intro fuel
  induction fuel with
  | zero =>
    intro l p hp
    cases l with
    | nil => simp [counterGo] at hp
    | cons w rest => simp [counterGo] at hp
  | succ n ih =>
    intro l p hp
    cases l with
    | nil => simp [counterGo] at hp
    | cons w rest =>
      simp only [counterGo] at hp
      rcases List.mem_cons.mp hp with rfl | hm
      · simp only [List.count_cons_self]
        omega
      · have h1 := ih _ p hm
        have hkey := counterGo_key_mem _ _ p hm
        have hne : p.1 ≠ w := by
          have := List.of_mem_filter hkey
          simpa using this
        rw [h1, List.count_cons_of_ne hne, count_filter_ne hne]

theorem counterOf_count : ∀ l : List String, ∀ p ∈ counterOf l, p.2 = l.count p.1 :=
  fun l => counterGo_count l.length l

theorem count_map_eq_countP (f : String → String) (b : String) :
    ∀ l : List String, (l.map f).count b = l.countP (fun a => f a == b) := by
  intro l
  induction l with
  | nil => simp
  | cons a l ih => simp [List.count_cons, List.countP_cons, ih]

theorem ratFloor_eq (x : ℚ) : ratFloor x = ⌊x⌋ := Rat.floor_def.symm

theorem floor_le_pyRoundHalfEvenInt (x : ℚ) : ratFloor x ≤ pyRoundHalfEvenInt x := by
  unfold pyRoundHalfEvenInt
  split_ifs <;> omega

theorem intLe_pyRound1 {n : ℤ} {x : ℚ} (h : (n : ℚ) ≤ 10 * x) :
    (n : ℚ) / 10 ≤ pyRound1 x := by
  have h1 : n ≤ ratFloor (10 * x) := by
    rw [ratFloor_eq]
    exact Int.le_floor.mpr h
  have h2 : n ≤ pyRoundHalfEvenInt (10 * x) :=
    le_trans h1 (floor_le_pyRoundHalfEvenInt _)
  have h3 : (n : ℚ) ≤ (pyRoundHalfEvenInt (10 * x) : ℚ) := by exact_mod_cast h2
  unfold pyRound1
  linarith

theorem pronounCount_le_five (text : String) : pronounCount text ≤ 5 := by
  have h := List.length_filter_le (fun w => containsSub w text) personalPronouns
  have h5 : personalPronouns.length = 5 := rfl
  unfold pronounCount lexCount
  omega

theorem objectivity_eq (text : String) :
    (styleAnalysis text).objectivity = 100 - 10 * (pronounCount text : ℤ) := by
  have h : (pronounCount text : ℤ) ≤ 5 := by exact_mod_cast pronounCount_le_five text
  have h0 : (0 : ℤ) ≤ (pronounCount text : ℤ) := Int.natCast_nonneg _
  simp only [styleAnalysis]
  rw [min_eq_right (by omega), max_eq_right (by omega)]

theorem objectivity_ge_50 (text : String) : (50 : ℤ) ≤ (styleAnalysis text).objectivity := by
  have h : (pronounCount text : ℤ) ≤ 5 := by exact_mod_cast pronounCount_le_five text
  rw [objectivity_eq]
  omega

theorem objectivity_le_100 (text : String) : (styleAnalysis text).objectivity ≤ 100 := by
  have h0 : (0 : ℤ) ≤ (pronounCount text : ℤ) := Int.natCast_nonneg _
  rw [objectivity_eq]
  omega

theorem diversity_nonneg (text : String) : 0 ≤ (contentAnalysis text).diversity_score := by
  simp only [contentAnalysis]
  split
  · norm_num
  · positivity

theorem lengthPoints_ge_10 (wc : Nat) : (10 : ℚ) ≤ lengthPoints wc := by
  unfold lengthPoints
  split_ifs <;> norm_num

theorem scoreTotal_lower (text : String) :
    (35/2 : ℚ) ≤ scoreTotal (basicAnalysis text) (styleAnalysis text) (contentAnalysis text) := by
  have hobj : (50 : ℤ) ≤ (styleAnalysis text).objectivity := objectivity_ge_50 text
  have hobjQ : (50 : ℚ) ≤ ((styleAnalysis text).objectivity : ℚ) := by exact_mod_cast hobj
  have hobj2 : (15/2 : ℚ) ≤ ((styleAnalysis text).objectivity : ℚ) * (3/20) := by linarith
  have hlen : (10 : ℚ) ≤ lengthPoints (basicAnalysis text).word_count := lengthPoints_ge_10 _
  have hsty : (0 : ℚ) ≤ min 25 (((styleAnalysis text).journalist_score : ℚ) * 3) :=
    le_min (by norm_num) (by positivity)
  have hd1 : (0 : ℚ) ≤ (if (styleAnalysis text).uses_data then (10:ℚ) else 0) := by
    split <;> norm_num
  have hd2 : (0 : ℚ) ≤ (if (styleAnalysis text).has_dates then (5:ℚ) else 0) := by
    split <;> norm_num
  have hd3 : (0 : ℚ) ≤ (if (contentAnalysis text).mentions_sources then (10:ℚ) else 0) := by
    split <;> norm_num
  have hd4 : (0 : ℚ) ≤ (if 3 ≤ (basicAnalysis text).paragraph_count then (5:ℚ) else 0) := by
    split <;> norm_num
  have hd5 : (0 : ℚ) ≤ (if (styleAnalysis text).well_structured then (5:ℚ) else 0) := by
    split <;> norm_num
  have hdiv : (0 : ℚ) ≤ (contentAnalysis text).diversity_score * 5 :=
    mul_nonneg (diversity_nonneg text) (by norm_num)
  unfold scoreTotal
  linarith

theorem score_lower (text : String) : (35/2 : ℚ) ≤ (overallOf text).score := by
  have h := scoreTotal_lower text
  have h2 : ((175 : ℤ) : ℚ) ≤
      10 * scoreTotal (basicAnalysis text) (styleAnalysis text) (contentAnalysis text) := by
    push_cast
    linarith
  have h3 := intLe_pyRound1 h2
  have h4 : (35/2 : ℚ) ≤
      pyRound1 (scoreTotal (basicAnalysis text) (styleAnalysis text) (contentAnalysis text)) := by
    have he : ((175 : ℤ) : ℚ) / 10 = 35/2 := by norm_num
    linarith
  show (35/2 : ℚ) ≤ (calculateOverallScore _ _ _).score
  simp only [calculateOverallScore]
  exact le_min (by norm_num) h4

/-! ## Claims -/

/-- C1, counterexample: the claim that generate attaches the result of the
standalone analysis pipeline is false — the dictionary generate attaches
(built by _analyze_script) and the analysis dictionary built by analyze
do not even have the same keys: the pipeline result carries a
recommendations component (besides style, content and overall_score)
that the generator analysis lacks. -/
theorem C1_counterexample :
    (scriptAnalysisKeys == analyzeResultKeys) = false ∧
    "recommendations" ∈ analyzeResultKeys ∧
    scriptAnalysisKeys.contains "recommendations" = false := by
  decide

/-- C1, amended: generate attaches the summary produced by its internal
_analyze_script, not the full AdvancedScriptAnalyzer pipeline; the two
agree on every overlapping output — word count, sentence count, rounded
average sentence length, paragraph count, and the top-5 most-common-word
list — but the generator summary has only a readability tier where the
pipeline has style, content, recommendations and overall score. -/
theorem C1_generator_analysis_overlap (text : String) :
    (analyzeScript text).word_count = (basicAnalysis text).word_count ∧
    (analyzeScript text).sentence_count = (basicAnalysis text).sentence_count ∧
    (analyzeScript text).avg_sentence_length = (basicAnalysis text).avg_sentence_length ∧
    (analyzeScript text).paragraph_count = (basicAnalysis text).paragraph_count ∧
    (analyzeScript text).most_common_words = (contentAnalysis text).most_common_words :=
  ⟨rfl, rfl, rfl, rfl, rfl⟩

theorem C1_witness :
    (analyzeScript "").word_count = (basicAnalysis "").word_count :=
  (C1_generator_analysis_overlap "").1

/-- C2, counterexample: the content analysis does not return the 10 most
frequent qualifying tokens — on a text with six distinct qualifying
tokens the top-10 list has six entries but the returned list is cut to
five. -/
theorem C2_counterexample :
    (contentAnalysis "aaaa bbbb cccc dddd eeee ffff").most_common_words.length = 5 ∧
    (mostCommonWords "aaaa bbbb cccc dddd eeee ffff").length = 6 ∧
    decide ((contentAnalysis "aaaa bbbb cccc dddd eeee ffff").most_common_words
      = mostCommonWords "aaaa bbbb cccc dddd eeee ffff") = false := by
  decide

/-- C2, amended: the content analysis returns the 5 most frequent
qualifying tokens (the top-10 frequency list truncated to its first
five entries), ordered by descending frequency with ties in
first-occurrence order: the returned list is the 5-prefix of the stable
descending sort of the frequency table, its counts are antitone along
the list, the sort leaves every equal-count class in table
(first-occurrence) order, and each table entry carries the exact number
of occurrences of its token. -/
theorem C2_most_common (text : String) :
    (contentAnalysis text).most_common_words = (sortByCount (wordFreq text)).take 5 ∧
    ((contentAnalysis text).most_common_words).Pairwise (fun a b => b.2 ≤ a.2) ∧
    (∀ c : Nat, (sortByCount (wordFreq text)).filter (fun q => q.2 == c)
        = (wordFreq text).filter (fun q => q.2 == c)) ∧
    (∀ p ∈ wordFreq text, p.2 = (qualTokens text).count p.1) := by
  refine ⟨?_, ?_, fun c => filter_sortByCount c _, fun p hp => counterOf_count _ p hp⟩
  · show (mostCommonWords text).take 5 = _
    simp [mostCommonWords, List.take_take]
  · have hs := pairwise_sortByCount (wordFreq text)
    exact hs.sublist
      ((List.take_sublist 5 _).trans (List.take_sublist 10 _))

theorem C2_witness :
    ("aaaa", 2) ∈ wordFreq "aaaa aaaa bbbb" ∧
    (2 : Nat) = (qualTokens "aaaa aaaa bbbb").count "aaaa" :=
  ⟨by decide, (C2_most_common "aaaa aaaa bbbb").2.2.2 ("aaaa", 2) (by decide)⟩

/-- C3, counterexample: analyzing the empty string does not yield an
all-zero paragraph count — the source computes count of double newlines
plus one, which is 1 on the empty string. -/
theorem C3_counterexample :
    (basicAnalysis "").paragraph_count = 1 ∧
    decide ((basicAnalysis "").paragraph_count = 0) = false := by
  decide

/-- C3, amended: analyzing the empty string succeeds and yields zero for
word_count, sentence_count, char_count, avg_sentence_length,
avg_word_length, reading_time_minutes and broadcast_time_seconds, while
paragraph_count is 1 (double-newline count plus one). -/
theorem C3_empty_basic :
    basicAnalysis "" =
      { word_count := 0, sentence_count := 0, char_count := 0, paragraph_count := 1,
        avg_sentence_length := 0, avg_word_length := 0, reading_time_minutes := 0,
        broadcast_time_seconds := 0 } := by
  decide

/-- C4, counterexample: on the empty string the recommendations are not
exactly those of rules 1, 5, 6 and 7 — rule 3 also fires, because the
journalist score of the empty text is 0 < 3. -/
theorem C4_counterexample :
    recNotJournalistic ∈ recommendationsOf "" ∧
    decide (recommendationsOf ""
      = [recTooShort, recNoData, recNoSources, recUnstructured]) = false := by
  decide

/-- C4, amended: for the empty-string input exactly recommendation rules
1 (too short), 3 (style not journalistic enough), 5 (missing
statistics), 6 (no sources) and 7 (poorly structured) fire, in rule
order; rules 4 and 8 do not fire; the overall rating is the
needs-improvement tier, with word_count = 0 and sentence_count = 0. -/
theorem C4_empty_recommendations :
    recommendationsOf ""
      = [recTooShort, recNotJournalistic, recNoData, recNoSources, recUnstructured] ∧
    (overallOf "").rating = "يحتاج تحسين" ∧
    (basicAnalysis "").word_count = 0 ∧
    (basicAnalysis "").sentence_count = 0 := by
  decide

/-- C5, counterexample: the frequency table of the text made of the two
tokens ab,, and ,,cd has keys ab and cd — the token ab,, is counted even
though its stripped form has length 2 (the length test precedes
stripping), and the leading commas of ,,cd are removed (the strip is
two-sided, not trailing-only), both contradicting the claim. -/
theorem C5_counterexample :
    (wordFreq "ab,, ,,cd").map Prod.fst = ["ab", "cd"] ∧
    ("ab", 1) ∈ wordFreq "ab,, ,,cd" ∧
    decide ((",,cd", 1) ∈ wordFreq "ab,, ,,cd") = false := by
  decide

/-- C5, amended: the word-frequency table counts exactly those
whitespace-split tokens whose RAW length exceeds 3 characters (the
length test happens before any stripping), with the punctuation set
stripped from BOTH ends of the counted token: each table entry equals
the number of raw tokens of length above 3 whose two-sided-stripped form
is that key. -/
theorem C5_word_frequency (text : String) :
    qualTokens text = ((wordsOf text).filter (fun w => 3 < w.length)).map pyStripPunct ∧
    (∀ p ∈ wordFreq text,
      p.2 = ((wordsOf text).filter (fun w => 3 < w.length)).countP
        (fun w => pyStripPunct w == p.1)) := by
  refine ⟨rfl, ?_⟩
  intro p hp
  rw [counterOf_count _ p hp]
  exact count_map_eq_countP pyStripPunct p.1 _

theorem C5_witness :
    ("ab", 1) ∈ wordFreq "ab,, cccc" ∧
    (1 : Nat) = ((wordsOf "ab,, cccc").filter (fun w => 3 < w.length)).countP
      (fun w => pyStripPunct w == "ab") :=
  ⟨by decide, (C5_word_frequency "ab,, cccc").2 ("ab", 1) (by decide)⟩

/-- C6: for every landmark record and every random choice, generating at
duration 30 produces exactly the title, intro, detailed description and
conclusion sections, in that order: every duration-gated section
(historical context at 90, significance at 60, story at 120, key
landmarks at 90, statistics at 150, journalist angles at 180, visit
info at 60) is excluded since 30 is below every threshold. -/
theorem C6_duration30_sections (lm : Landmark) (r : Nat) :
    sectionTitles lm 30 r = ["العنوان", "المقدمة", "الوصف التفصيلي", "الخاتمة"] :=
  rfl

theorem C6_witness :
    sectionTitles ⟨[], [], [], []⟩ 30 0
      = ["العنوان", "المقدمة", "الوصف التفصيلي", "الخاتمة"] :=
  C6_duration30_sections ⟨[], [], [], []⟩ 0

/-- C7: the tone is the formal tier exactly when formal_count exceeds
twice informal_count, the informal tier exactly when that fails and
informal_count exceeds formal_count, and the balanced tier otherwise —
in particular on ties — where the counts are substring-match counts of
the fixed formal and informal lexicons. -/
theorem C7_tone_classification (text : String) :
    (detectTone text = "رسمي" ↔ informalCount text * 2 < formalCount text) ∧
    (detectTone text = "غير رسمي" ↔
      (formalCount text ≤ informalCount text * 2 ∧ formalCount text < informalCount text)) ∧
    (detectTone text = "متوازن" ↔
      (formalCount text ≤ informalCount text * 2 ∧ informalCount text ≤ formalCount text)) := by
  unfold detectTone
  split_ifs with h1 h2
  · exact ⟨iff_of_true rfl h1, iff_of_false (by decide) (by omega),
      iff_of_false (by decide) (by omega)⟩
  · exact ⟨iff_of_false (by decide) (by omega), iff_of_true rfl ⟨by omega, h2⟩,
      iff_of_false (by decide) (by omega)⟩
  · exact ⟨iff_of_false (by decide) (by omega), iff_of_false (by decide) (by omega),
      iff_of_true rfl ⟨by omega, by omega⟩⟩

theorem C7_witness : detectTone "" = "متوازن" :=
  (C7_tone_classification "").2.2.mpr (by decide)

/-- C8: for every input text the objectivity percentage lies in [0, 100]
(the source clamps it) and the overall score lies in [0, 100] (every
term of the weighted sum is non-negative and the sum is capped at
100). -/
theorem C8_bounds (text : String) :
    (0 ≤ (styleAnalysis text).objectivity ∧ (styleAnalysis text).objectivity ≤ 100) ∧
    (0 ≤ (overallOf text).score ∧ (overallOf text).score ≤ 100) := by
  refine ⟨⟨?_, objectivity_le_100 text⟩, ⟨?_, ?_⟩⟩
  · exact le_trans (by norm_num) (objectivity_ge_50 text)
  · exact le_trans (by norm_num) (score_lower text)
  · show (calculateOverallScore _ _ _).score ≤ 100
    simp only [calculateOverallScore]
    exact min_le_left _ _

theorem C8_witness : 0 ≤ (styleAnalysis "").objectivity :=
  (C8_bounds "").1.1

/-- C9, counterexample: running the analysis on the same text twice does
not yield identical results when the clock advances, because the
analysis dictionary embeds the wall-clock reading in its analyzed_at
field. -/
theorem C9_counterexample :
    (analyze "" "2025-01-01 00:00:00").analyzed_at = "2025-01-01 00:00:00" ∧
    decide (analyze "" "2025-01-01 00:00:00" = analyze "" "2025-01-01 00:00:01") = false := by
  decide

/-- C9, amended: every component of the analysis other than the
analyzed_at timestamp — the basic metrics, style, content,
recommendations and overall score — is a deterministic function of the
text alone: two runs at any two clock readings agree on all of them. -/
theorem C9_analysis_deterministic (text t1 t2 : String) :
    (analyze text t1).basic = (analyze text t2).basic ∧
    (analyze text t1).style = (analyze text t2).style ∧
    (analyze text t1).content = (analyze text t2).content ∧
    (analyze text t1).recommendations = (analyze text t2).recommendations ∧
    (analyze text t1).overall_score = (analyze text t2).overall_score :=
  ⟨rfl, rfl, rfl, rfl, rfl⟩

theorem C9_witness :
    (analyze "" "a").basic = (analyze "" "b").basic :=
  (C9_analysis_deterministic "" "a" "b").1

/-- C10: for every input text the overall score is at least 17.5: the
length term is at least 10 in every branch, and the objectivity
percentage never falls below 50 (the personal-pronoun lexicon has five
entries, each deducted at most once), so the objectivity term is at
least 7.5 and the remaining terms are non-negative. -/
theorem C10_score_floor (text : String) :
    (10 : ℚ) ≤ lengthPoints (basicAnalysis text).word_count ∧
    (50 : ℤ) ≤ (styleAnalysis text).objectivity ∧
    (35/2 : ℚ) ≤ (overallOf text).score :=
  ⟨lengthPoints_ge_10 _, objectivity_ge_50 text, score_lower text⟩

theorem C10_witness : (35/2 : ℚ) ≤ (overallOf "").score :=
  (C10_score_floor "").2.2

end App
